import Mathlib

/-!
Shallow embedding of `packages/react-dom-bindings/src/client/inputValueTracking.js`.

The JavaScript module intercepts the `value`/`checked` property of a form
control: it installs an instance-level accessor pair that shadows the
class-level (prototype) accessor, records the string form of every write in a
closed-over mutable cell (`currentValue`), and exposes a per-node tracker with
`getValue`/`setValue`/`stopTracking`, plus the public API `track`,
`updateValueIfChanged`, `stopTracking`.

The embedding models the JS heap fragment the module manipulates explicitly:

* `JSValue` — the primitive values that flow through the accessors, with
  `toJSString` modelling the coercion `'' + v`, `truthy` modelling boolean
  contexts, and `jsStrictEq` modelling `===`/`!==`.
* `Descriptor` — a class-level accessor property descriptor
  (`get`/`set`/`enumerable`); getters and setters of the host class are drawn
  from small inductives (`Getter`, `Setter`) whose `native` case is the
  host's backing-slot accessor (the host's own accessors are consumed, not
  re-specified, so only their observable behaviours are enumerated; a
  `Setter.reentrant` case models a host setter whose side effect reads the
  tracker's cell mid-delegation).
* `NodeState` — one tracked-node heap: the element data (`nodeName`, the
  `type` attribute, the boolean/string backing slots), the prototype
  descriptors for `checked` and `value` (mutable over time, since hosts may
  redefine them after installation), the instance-level own properties for
  those two fields, the closed-over tracker cell created by
  `trackValueOnNode` (shared by the installed accessor and the tracker
  object), and the truthiness of `node._valueTracker`.

Reads and writes of `node[field]` (`readField`/`writeField`) follow JS
property semantics: an own data property wins, the installed accessor runs
its closure, otherwise the prototype accessor runs.  The module's functions
are then direct translations, state-passing where the JS mutates.
-/

namespace InputValueTracking

/-- A JavaScript primitive value as it flows through the intercepted
accessors. -/
inductive JSValue where
  | str (s : String)
  | bool (b : Bool)
  | num (n : Int)
  | null
  | undefined
deriving DecidableEq, Repr

/-- The string coercion `'' + v` used by the tracker to record values. -/
def toJSString : JSValue → String
  | .str s => s
  | .bool true => "true"
  | .bool false => "false"
  | .num n => toString n
  | .null => "null"
  | .undefined => "undefined"

/-- JS truthiness of a primitive value (used by `node.checked ? ... : ...`). -/
def JSValue.truthy : JSValue → Bool
  | .str s => s ≠ ""
  | .bool b => b
  | .num n => n ≠ 0
  | .null => false
  | .undefined => false

/-- JS strict equality `===` restricted to the primitives of `JSValue`. -/
def jsStrictEq : JSValue → JSValue → Bool
  | .str a, .str b => a == b
  | .bool a, .bool b => a == b
  | .num a, .num b => a == b
  | .null, .null => true
  | .undefined, .undefined => true
  | _, _ => false

/-- The field a tracker intercepts: `'checked'` or `'value'`. -/
inductive ValueField where
  | checked
  | value
deriving DecidableEq, Repr

/-- Observable behaviour of a class-level getter.  `native` reads the host's
backing slot for the field; `const v` is a getter redefined by the
environment to return `v`. -/
inductive Getter where
  | native
  | const (v : JSValue)
deriving DecidableEq, Repr

/-- Observable behaviour of a class-level setter.  `native` writes the host's
backing slot (with the host's own coercion); `noop` discards the write;
`reentrant` is a setter whose side effect reads the tracker's recorded value
during delegation and stores it in the string slot. -/
inductive Setter where
  | native
  | noop
  | reentrant
deriving DecidableEq, Repr

/-- An accessor property descriptor on the class prototype, as read by
`Object.getOwnPropertyDescriptor(node.constructor.prototype, field)`.
`get?`/`set?` are `none` when the descriptor lacks that accessor. -/
structure Descriptor where
  get? : Option Getter
  set? : Option Setter
  enumerable : Bool
deriving DecidableEq, Repr

/-- An own (instance-level) property of the node for one of the two fields:
either a plain data property (pre-existing instrumentation, a bail trigger),
or the accessor installed by `trackValueOnNode` (carrying the `enumerable`
flag set by `Object.defineProperty`). -/
inductive OwnProp where
  | plain (v : JSValue)
  | installed (enumerable : Bool)
deriving DecidableEq, Repr

/-- The closure state created by one successful `trackValueOnNode` call: the
captured field name, the captured original accessor pair, and the mutable
`currentValue` cell.  The installed instance accessor and the returned
tracker object both close over this same state. -/
structure TrackerClosure where
  field : ValueField
  capturedGet : Getter
  capturedSet : Setter
  currentValue : String
deriving DecidableEq, Repr

/-- The heap fragment for one tracked node. -/
structure NodeState where
  /-- `node.nodeName` (empty string models a falsy tag). -/
  nodeName : String
  /-- `node.type` — the sub-kind attribute. -/
  typeAttr : String
  /-- Host backing slot behind the native `checked` accessor. -/
  checkedSlot : Bool
  /-- Host backing slot behind the native `value` accessor. -/
  valueSlot : String
  /-- Class-level descriptor for `checked` (current, possibly redefined). -/
  protoChecked : Option Descriptor
  /-- Class-level descriptor for `value` (current, possibly redefined). -/
  protoValue : Option Descriptor
  /-- Instance-level own property for `checked`, if any. -/
  ownChecked : Option OwnProp
  /-- Instance-level own property for `value`, if any. -/
  ownValue : Option OwnProp
  /-- The live closure created by the last successful installation; the
  installed accessor reads and writes through it. -/
  cell : Option TrackerClosure
  /-- Truthiness of `node._valueTracker`. -/
  hasTracker : Bool
deriving DecidableEq, Repr

/-- `Object.getOwnPropertyDescriptor(node.constructor.prototype, f)`. -/
def protoDesc (s : NodeState) : ValueField → Option Descriptor
  | .checked => s.protoChecked
  | .value => s.protoValue

/-- The node's own property for field `f`. -/
def ownProp (s : NodeState) : ValueField → Option OwnProp
  | .checked => s.ownChecked
  | .value => s.ownValue

/-- Replace the node's own property for field `f`
(`Object.defineProperty` / `delete`). -/
def setOwn (s : NodeState) (f : ValueField) (p : Option OwnProp) : NodeState :=
  match f with
  | .checked => { s with ownChecked := p }
  | .value => { s with ownValue := p }

/-- Run a class-level getter for field `f`: the native one reads the backing
slot (`checked` is boolean-backed, `value` string-backed). -/
def runGetter (s : NodeState) (f : ValueField) : Getter → JSValue
  | .native =>
    match f with
    | .checked => .bool s.checkedSlot
    | .value => .str s.valueSlot
  | .const v => v

/-- The `get` function installed by `trackValueOnNode`: re-read the current
class-level descriptor; if it is absent or lacks a getter, fall back to the
captured getter, otherwise delegate to the current one.  (The `cell = none`
case is unreachable through the module's API — the accessor exists only
while its closure does — and is mapped to `undefined`.) -/
def installedGet (s : NodeState) : JSValue :=
  match s.cell with
  | none => .undefined
  | some c =>
    match protoDesc s c.field with
    | none => runGetter s c.field c.capturedGet
    | some d =>
      match d.get? with
      | none => runGetter s c.field c.capturedGet
      | some g => runGetter s c.field g

/-- Reading `node[f]`: an own data property wins; the installed accessor runs
its getter; otherwise the prototype accessor runs (`undefined` when no
getter exists anywhere). -/
def readField (s : NodeState) (f : ValueField) : JSValue :=
  match ownProp s f with
  | some (.plain v) => v
  | some (.installed _) => installedGet s
  | none =>
    match protoDesc s f with
    | none => .undefined
    | some d =>
      match d.get? with
      | none => .undefined
      | some g => runGetter s f g

/-- Run a class-level setter for field `f` with argument `v`.  The native
setter writes the backing slot with the host's coercion (`checked` stores
truthiness, `value` stores the string form).  `reentrant` reads the
tracker's recorded value during the delegated write and stores it in the
string slot. -/
def runSetter (s : NodeState) (f : ValueField) : Setter → JSValue → NodeState
  | .native, v =>
    match f with
    | .checked => { s with checkedSlot := v.truthy }
    | .value => { s with valueSlot := toJSString v }
  | .noop, _ => s
  | .reentrant, _ =>
    { s with valueSlot := match s.cell with
                          | some c => c.currentValue
                          | none => "" }

/-- The `set` function installed by `trackValueOnNode`: update the closure's
`currentValue` to `'' + value` first, then re-read the current class-level
descriptor and delegate to its setter, falling back to the captured setter
when the current descriptor is absent or lacks one.  (The dev-only
`checkFormFieldValueStringCoercion` diagnostic never alters the write and is
out of scope.) -/
def installedSet (s : NodeState) (v : JSValue) : NodeState :=
  match s.cell with
  | none => s
  | some c =>
    let s1 : NodeState := { s with cell := some { c with currentValue := toJSString v } }
    match protoDesc s1 c.field with
    | none => runSetter s1 c.field c.capturedSet v
    | some d =>
      match d.set? with
      | none => runSetter s1 c.field c.capturedSet v
      | some st => runSetter s1 c.field st v

/-- Writing `node[f] = v`: an own data property is overwritten; the installed
accessor runs its setter; otherwise the prototype setter runs when present
(a prototype accessor without a setter rejects the write; with no descriptor
at all, assignment creates an own data property). -/
def writeField (s : NodeState) (f : ValueField) (v : JSValue) : NodeState :=
  match ownProp s f with
  | some (.plain _) => setOwn s f (some (.plain v))
  | some (.installed _) => installedSet s v
  | none =>
    match protoDesc s f with
    | none => setOwn s f (some (.plain v))
    | some d =>
      match d.set? with
      | none => s
      | some st => runSetter s f st v

/-- `String.prototype.toLowerCase()` as applied to element tags (character
by character; tags are ASCII, where JS and Unicode simple lowercasing
agree). -/
def jsToLowerCase (s : String) : String :=
  ⟨s.data.map Char.toLower⟩

/-- `isCheckable(elem)`: the tag is truthy, lowercases to `'input'`, and the
`type` attribute is `'checkbox'` or `'radio'`. -/
def isCheckable (s : NodeState) : Bool :=
  s.nodeName != "" && jsToLowerCase s.nodeName == "input" &&
    (s.typeAttr == "checkbox" || s.typeAttr == "radio")

/-- `getValueFromNode(node)`: empty string for an absent node; `'true'` /
`'false'` from the truthiness of `node.checked` for a checkable control;
`node.value` otherwise. -/
def getValueFromNode : Option NodeState → JSValue
  | none => .str ""
  | some s =>
    if isCheckable s then
      if (readField s .checked).truthy then .str "true" else .str "false"
    else
      readField s .value

/-- The field `trackValueOnNode` targets:
`isCheckable(node) ? 'checked' : 'value'`. -/
def targetField (s : NodeState) : ValueField :=
  if isCheckable s then ValueField.checked else ValueField.value

/-- `trackValueOnNode(node)`: pick the target field, read the class-level
descriptor and the field's present value (seed for `currentValue`); bail —
returning no tracker and leaving the node untouched — when the instance
already owns the field, or the descriptor is missing or lacks a getter or a
setter; otherwise capture the accessor pair, install the shadowing accessor
(`Object.defineProperty` with `configurable: true`, then a second
`defineProperty` fixing only `enumerable`), and return the tracker closure. -/
def trackValueOnNode (s : NodeState) : Option TrackerClosure × NodeState :=
  let valueField := targetField s
  let descriptor := protoDesc s valueField
  let currentValue := toJSString (readField s valueField)
  if (ownProp s valueField).isSome then (none, s)
  else
    match descriptor with
    | none => (none, s)
    | some d =>
      match d.get?, d.set? with
      | some g, some st =>
        let c : TrackerClosure :=
          { field := valueField, capturedGet := g, capturedSet := st,
            currentValue := currentValue }
        let s1 := setOwn { s with cell := some c } valueField
                    (some (OwnProp.installed false))
        let s2 := setOwn s1 valueField (some (OwnProp.installed d.enumerable))
        (some c, s2)
      | _, _ => (none, s)

/-- `tracker.getValue()`: read the closure's `currentValue` (the `cell = none`
case is unreachable while a tracker object exists). -/
def trackerGetValue (s : NodeState) : String :=
  match s.cell with
  | some c => c.currentValue
  | none => ""

/-- `tracker.setValue(v)`: overwrite the closure's `currentValue` with
`'' + v`. -/
def trackerSetValue (s : NodeState) (v : JSValue) : NodeState :=
  match s.cell with
  | some c => { s with cell := some { c with currentValue := toJSString v } }
  | none => s

/-- `tracker.stopTracking()`: `detachTracker(node)` (clear `_valueTracker`),
then `delete node[valueField]` for the closure's captured field. -/
def trackerStopTracking (s : NodeState) : NodeState :=
  let s1 : NodeState := { s with hasTracker := false }
  match s1.cell with
  | some c => setOwn s1 c.field none
  | none => s1

/-- `track(node)`: no-op when a tracker is already attached; otherwise store
the result of `trackValueOnNode` (possibly nothing) in `_valueTracker`. -/
def track (s : NodeState) : NodeState :=
  if s.hasTracker then s
  else
    let r := trackValueOnNode s
    { r.2 with hasTracker := r.1.isSome }

/-- `updateValueIfChanged(node)`: `false` for an absent node; `true` when no
tracker is attached; otherwise compare the recorded value with a fresh
`getValueFromNode` read, resynchronise via `setValue` and return `true` when
they differ, else return `false`. -/
def updateValueIfChanged : Option NodeState → Bool × Option NodeState
  | none => (false, none)
  | some s =>
    if !s.hasTracker then (true, some s)
    else
      let lastValue := trackerGetValue s
      let nextValue := getValueFromNode (some s)
      if !(jsStrictEq nextValue (.str lastValue)) then
        (true, some (trackerSetValue s nextValue))
      else
        (false, some s)

/-- `stopTracking(node)`: delegate to the tracker's `stopTracking` when one is
attached, no-op otherwise. -/
def stopTracking (s : NodeState) : NodeState :=
  if s.hasTracker then trackerStopTracking s else s

/-- Reading field `f` through the class-level accessor only (what instance
reads revert to once the shadowing property is deleted). -/
def classRead (s : NodeState) (f : ValueField) : JSValue :=
  match protoDesc s f with
  | none => .undefined
  | some d =>
    match d.get? with
    | none => .undefined
    | some g => runGetter s f g

/-- The setter the installed `set` delegates to: the current class-level one
when the current descriptor has a setter, else the captured one. -/
def chosenSet (s : NodeState) (c : TrackerClosure) : Setter :=
  match protoDesc s c.field with
  | none => c.capturedSet
  | some d =>
    match d.set? with
    | none => c.capturedSet
    | some st => st

/-- A host-level external mutation of the string-backed field — user typing,
autofill, or a script calling the class-level native setter directly — which
bypasses the instance-level accessor and hence the tracker. -/
def untrackedWriteValue (s : NodeState) (x : String) : NodeState :=
  runSetter s .value .native (.str x)

/-- A host-level external mutation of the boolean-backed field, bypassing the
instance-level accessor. -/
def untrackedWriteChecked (s : NodeState) (b : Bool) : NodeState :=
  runSetter s .checked .native (.bool b)

/-- A fresh text input with native class accessors for both fields and
value slot `v`. -/
def mkTextInput (v : String) : NodeState :=
  { nodeName := "INPUT", typeAttr := "text", checkedSlot := false,
    valueSlot := v,
    protoChecked := some ⟨some .native, some .native, true⟩,
    protoValue := some ⟨some .native, some .native, true⟩,
    ownChecked := none, ownValue := none, cell := none, hasTracker := false }

/-- A fresh checkbox input with native class accessors for both fields and
checked slot `b`. -/
def mkCheckboxInput (b : Bool) : NodeState :=
  { nodeName := "INPUT", typeAttr := "checkbox", checkedSlot := b,
    valueSlot := "on",
    protoChecked := some ⟨some .native, some .native, true⟩,
    protoValue := some ⟨some .native, some .native, true⟩,
    ownChecked := none, ownValue := none, cell := none, hasTracker := false }

/-! ## Shared sample states used by witnesses -/

/-- The tracker closure created by tracking a fresh text input seeded `"a"`. -/
def cellA : TrackerClosure :=
  { field := .value, capturedGet := .native, capturedSet := .native,
    currentValue := "a" }

/-- A text input carrying a pre-existing own `value` data property (a bail
trigger for the interceptor). -/
def ownedTextInput : NodeState :=
  { mkTextInput "a" with ownValue := some (.plain (.str "x")) }

/-- The class-level `value` descriptor of `redefinedNode`, installed after
tracking: its getter was replaced by a constant getter. -/
def liveDesc : Descriptor :=
  { get? := some (.const (.str "live")), set? := some .native, enumerable := true }

/-- A tracked text input whose class-level `value` descriptor was redefined
after installation (the captured getter is still the native one). -/
def redefinedNode : NodeState :=
  { track (mkTextInput "a") with protoValue := some liveDesc }

/-- A tracked text input whose class-level `value` setter was replaced
after installation by one that reads the tracker during delegation. -/
def reentrantNode : NodeState :=
  { track (mkTextInput "a") with
      protoValue := some ⟨some .native, some .reentrant, true⟩ }

/-! ## Helper lemmas -/

@[simp] theorem setOwn_nodeName (s : NodeState) (f : ValueField) (p : Option OwnProp) :
    (setOwn s f p).nodeName = s.nodeName := by cases f <;> rfl

@[simp] theorem setOwn_typeAttr (s : NodeState) (f : ValueField) (p : Option OwnProp) :
    (setOwn s f p).typeAttr = s.typeAttr := by cases f <;> rfl

@[simp] theorem setOwn_checkedSlot (s : NodeState) (f : ValueField) (p : Option OwnProp) :
    (setOwn s f p).checkedSlot = s.checkedSlot := by cases f <;> rfl

@[simp] theorem setOwn_valueSlot (s : NodeState) (f : ValueField) (p : Option OwnProp) :
    (setOwn s f p).valueSlot = s.valueSlot := by cases f <;> rfl

@[simp] theorem setOwn_protoChecked (s : NodeState) (f : ValueField) (p : Option OwnProp) :
    (setOwn s f p).protoChecked = s.protoChecked := by cases f <;> rfl

@[simp] theorem setOwn_protoValue (s : NodeState) (f : ValueField) (p : Option OwnProp) :
    (setOwn s f p).protoValue = s.protoValue := by cases f <;> rfl

@[simp] theorem setOwn_cell (s : NodeState) (f : ValueField) (p : Option OwnProp) :
    (setOwn s f p).cell = s.cell := by cases f <;> rfl

@[simp] theorem setOwn_hasTracker (s : NodeState) (f : ValueField) (p : Option OwnProp) :
    (setOwn s f p).hasTracker = s.hasTracker := by cases f <;> rfl

@[simp] theorem protoDesc_setOwn (s : NodeState) (f : ValueField) (p : Option OwnProp)
    (g : ValueField) : protoDesc (setOwn s f p) g = protoDesc s g := by
  cases f <;> cases g <;> rfl

theorem ownProp_setOwn (s : NodeState) (f : ValueField) (p : Option OwnProp)
    (g : ValueField) : ownProp (setOwn s f p) g = if g = f then p else ownProp s g := by
  cases f <;> cases g <;> simp [setOwn, ownProp]

@[simp] theorem ownProp_setOwn_self (s : NodeState) (f : ValueField) (p : Option OwnProp) :
    ownProp (setOwn s f p) f = p := by cases f <;> rfl

@[simp] theorem isCheckable_setOwn (s : NodeState) (f : ValueField) (p : Option OwnProp) :
    isCheckable (setOwn s f p) = isCheckable s := by cases f <;> rfl

@[simp] theorem targetField_setOwn (s : NodeState) (f : ValueField) (p : Option OwnProp) :
    targetField (setOwn s f p) = targetField s := by cases f <;> rfl

/-- With the closure present, `tracker.setValue` rebuilds the cell with the
coerced value. -/
theorem trackerSetValue_of_cell {s : NodeState} {c : TrackerClosure}
    (h : s.cell = some c) (v : JSValue) :
    trackerSetValue s v = { s with cell := some { c with currentValue := toJSString v } } := by
  simp [trackerSetValue, h]

/-- Delegating to a class-level setter never touches the tracker closure. -/
theorem runSetter_cell (s : NodeState) (f : ValueField) (st : Setter) (v : JSValue) :
    (runSetter s f st v).cell = s.cell := by
  cases st <;> cases f <;> simp [runSetter]

/-- The installed `set` function factors as: update the cell first (exactly
as `tracker.setValue` does), then delegate to the chosen class-level
setter. -/
theorem installedSet_eq {s : NodeState} {c : TrackerClosure}
    (h : s.cell = some c) (v : JSValue) :
    installedSet s v = runSetter (trackerSetValue s v) c.field (chosenSet s c) v := by
  have hs1 := trackerSetValue_of_cell h v
  cases hf : c.field <;>
    rcases hd : protoDesc s c.field with _ | d
  case checked.none =>
    simp_all [installedSet, chosenSet, protoDesc]
  case checked.some =>
    cases hset : d.set? <;> simp_all [installedSet, chosenSet, protoDesc]
  case value.none =>
    simp_all [installedSet, chosenSet, protoDesc]
  case value.some =>
    cases hset : d.set? <;> simp_all [installedSet, chosenSet, protoDesc]

/-- Shape of a successful `track` call: the bail conditions all failed, and
the resulting state carries the seeded closure, the installed own property
(with the descriptor's `enumerable` flag after the second `defineProperty`),
and a truthy `_valueTracker`. -/
theorem track_success (s : NodeState) (hnt : s.hasTracker = false)
    (h : (track s).hasTracker = true) :
    ∃ d g st, ownProp s (targetField s) = none ∧
      protoDesc s (targetField s) = some d ∧
      d.get? = some g ∧ d.set? = some st ∧
      track s =
        { (setOwn
            (setOwn
              { s with cell := some (TrackerClosure.mk (targetField s) g st
                  (toJSString (readField s (targetField s)))) }
              (targetField s) (some (OwnProp.installed false)))
            (targetField s) (some (OwnProp.installed d.enumerable)))
          with hasTracker := true } := by
  rcases hown : ownProp s (targetField s) with _ | p
  · rcases hd : protoDesc s (targetField s) with _ | d
    · exfalso
      rw [track] at h
      simp only [hnt] at h
      simp [trackValueOnNode, hown, hd] at h
    · rcases hg : d.get? with _ | g
      · exfalso
        rw [track] at h
        simp only [hnt] at h
        simp [trackValueOnNode, hown, hd, hg] at h
      · rcases hst : d.set? with _ | st
        · exfalso
          rw [track] at h
          simp only [hnt] at h
          simp [trackValueOnNode, hown, hd, hg, hst] at h
        · refine ⟨d, g, st, by simp [hown], by simp [hd], hg, hst, ?_⟩
          rw [track]
          simp only [hnt]
          simp [trackValueOnNode, hown, hd, hg, hst, hnt]
  · exfalso
    rw [track] at h
    simp only [hnt] at h
    simp [trackValueOnNode, hown] at h

/-- The state of a tracked fresh text input whose slot and recorded value
are both `v` (what `track (mkTextInput v)` computes to). -/
def trackedText (v : String) : NodeState :=
  { nodeName := "INPUT", typeAttr := "text", checkedSlot := false,
    valueSlot := v,
    protoChecked := some ⟨some .native, some .native, true⟩,
    protoValue := some ⟨some .native, some .native, true⟩,
    ownChecked := none, ownValue := some (.installed true),
    cell := some ⟨.value, .native, .native, v⟩, hasTracker := true }

/-- `tracker.setValue` does not touch `_valueTracker`. -/
theorem trackerSetValue_hasTracker (s : NodeState) (v : JSValue) :
    (trackerSetValue s v).hasTracker = s.hasTracker := by
  rcases hc : s.cell with _ | c <;> simp [trackerSetValue, hc]

/-- `tracker.setValue` only rewrites the recorded value, so field reads are
unaffected (the installed getter never reads `currentValue`). -/
theorem readField_trackerSetValue (s : NodeState) (v : JSValue) (f : ValueField) :
    readField (trackerSetValue s v) f = readField s f := by
  rcases hc : s.cell with _ | c
  · simp [trackerSetValue, hc]
  · rw [trackerSetValue_of_cell hc v]
    cases f <;>
      simp [readField, ownProp, installedGet, protoDesc, runGetter, hc]

/-- Consequently a fresh `getValueFromNode` read is unchanged by
`tracker.setValue`. -/
theorem getValueFromNode_trackerSetValue (s : NodeState) (v : JSValue) :
    getValueFromNode (some (trackerSetValue s v)) = getValueFromNode (some s) := by
  have hck : isCheckable (trackerSetValue s v) = isCheckable s := by
    rcases hc : s.cell with _ | c
    · simp [trackerSetValue, hc]
    · rw [trackerSetValue_of_cell hc v]
      rfl
  simp [getValueFromNode, hck, readField_trackerSetValue]

/-- The changed branch of `updateValueIfChanged`. -/
theorem updateValueIfChanged_changed {s : NodeState} (ht : s.hasTracker = true)
    (hne : jsStrictEq (getValueFromNode (some s)) (.str (trackerGetValue s)) = false) :
    updateValueIfChanged (some s)
      = (true, some (trackerSetValue s (getValueFromNode (some s)))) := by
  simp [updateValueIfChanged, ht, hne]

/-- The unchanged branch of `updateValueIfChanged`. -/
theorem updateValueIfChanged_unchanged {s : NodeState} (ht : s.hasTracker = true)
    (heq : jsStrictEq (getValueFromNode (some s)) (.str (trackerGetValue s)) = true) :
    updateValueIfChanged (some s) = (false, some s) := by
  simp [updateValueIfChanged, ht, heq]

/-! ## Claims -/

/-- C1: a read of the intercepted field through the installed instance-level
accessor runs `installedGet`, which re-reads the class-level descriptor at
call time: when the current descriptor exists and has a getter it delegates
to that getter (even if it differs from the captured one), and when the
current descriptor is absent or lacks a getter it delegates to the getter
captured at installation; being a total function of the state, the read
never fails.  (The closure hypothesis `s.cell = some c` holds whenever the
installed accessor exists, since the accessor is created together with its
closure.) -/
theorem installed_getter_late_binding :
    (∀ (s : NodeState) (f : ValueField) (e : Bool),
      ownProp s f = some (.installed e) → readField s f = installedGet s) ∧
    (∀ (s : NodeState) (c : TrackerClosure) (d : Descriptor) (g : Getter),
      s.cell = some c → protoDesc s c.field = some d → d.get? = some g →
      installedGet s = runGetter s c.field g) ∧
    (∀ (s : NodeState) (c : TrackerClosure),
      s.cell = some c →
      (protoDesc s c.field = none ∨
        ∃ d, protoDesc s c.field = some d ∧ d.get? = none) →
      installedGet s = runGetter s c.field c.capturedGet) := by
  refine ⟨?_, ?_, ?_⟩
  · intro s f e h
    simp [readField, h]
  · intro s c d g hc hd hg
    simp [installedGet, hc, hd, hg]
  · intro s c hc h
    rcases h with hd | ⟨d, hd, hg⟩
    · simp [installedGet, hc, hd]
    · simp [installedGet, hc, hd, hg]

/-- Witness for C1: after the class-level `value` getter of a tracked node
is replaced, the installed getter delegates to the replacement, not to the
captured native getter. -/
theorem installed_getter_late_binding_witness :
    redefinedNode.cell = some cellA ∧
    protoDesc redefinedNode cellA.field = some liveDesc ∧
    liveDesc.get? = some (Getter.const (.str "live")) ∧
    installedGet redefinedNode
      = runGetter redefinedNode cellA.field (Getter.const (.str "live")) :=
  ⟨by decide, by decide, by decide,
    installed_getter_late_binding.2.1 redefinedNode cellA liveDesc
      (Getter.const (.str "live")) (by decide) (by decide) (by decide)⟩

/-- C2: a write `v` through the installed instance-level setter first
updates the closure's `currentValue` to the string form of `v` — exactly as
`tracker.setValue` would — and only then delegates to the chosen
class-level setter (the live one when present, else the captured one),
which therefore runs in a state whose tracker already records `'' + v`; in
particular a delegated setter that reads the tracker mid-write (the
`reentrant` behaviour) observes the string form of `v`. -/
theorem installed_setter_records_before_delegating
    (s : NodeState) (c : TrackerClosure) (v : JSValue) (h : s.cell = some c) :
    trackerGetValue (trackerSetValue s v) = toJSString v ∧
    installedSet s v = runSetter (trackerSetValue s v) c.field (chosenSet s c) v ∧
    (chosenSet s c = .reentrant → (installedSet s v).valueSlot = toJSString v) := by
  have hs1 := trackerSetValue_of_cell h v
  have h2 := installedSet_eq h v
  refine ⟨by simp [trackerGetValue, hs1], h2, ?_⟩
  intro hre
  rw [h2, hre]
  simp [runSetter, hs1]

/-- Witness for C2 at a tracked text input written with the number `5`
while the class-level setter is the reentrant one. -/
theorem installed_setter_records_before_delegating_witness :
    reentrantNode.cell = some cellA ∧
    chosenSet reentrantNode cellA = .reentrant ∧
    (installedSet reentrantNode (.num 5)).valueSlot = toJSString (.num 5) :=
  ⟨by decide, by decide,
    (installed_setter_records_before_delegating reentrantNode cellA (.num 5)
      (by decide)).2.2 (by decide)⟩

/-- C10: every path that writes the tracker's recorded value string-coerces
its input, so `tracker.getValue` returns the string form of the most recent
write even when the write carried a non-string: `setValue`, the intercepted
instance-level setter, and the installation-time seeding (the string form
of the field's value at `track` time) all store `'' + v`. -/
theorem currentValue_string_coercion_invariant :
    (∀ (s : NodeState) (v : JSValue), s.cell.isSome = true →
      trackerGetValue (trackerSetValue s v) = toJSString v) ∧
    (∀ (s : NodeState) (v : JSValue), s.cell.isSome = true →
      trackerGetValue (installedSet s v) = toJSString v) ∧
    (∀ s : NodeState, s.hasTracker = false → (track s).hasTracker = true →
      trackerGetValue (track s) = toJSString (readField s (targetField s))) := by
  refine ⟨?_, ?_, ?_⟩
  · intro s v h
    rcases hc : s.cell with _ | c
    · rw [hc] at h; cases h
    · simp [trackerGetValue, trackerSetValue_of_cell hc v]
  · intro s v h
    rcases hc : s.cell with _ | c
    · rw [hc] at h; cases h
    · rw [installedSet_eq hc v]
      simp [trackerGetValue, runSetter_cell, trackerSetValue_of_cell hc v]
  · intro s hnt h
    obtain ⟨d, g, st, hown, hd, hg, hst, htrack⟩ := track_success s hnt h
    rw [htrack]
    simp [trackerGetValue]

/-- Witness for C10: a tracked text input whose setter receives the boolean
`true` records the string `"true"`. -/
theorem currentValue_string_coercion_invariant_witness :
    (track (mkTextInput "a")).cell.isSome = true ∧
    trackerGetValue (installedSet (track (mkTextInput "a")) (.bool true)) = "true" :=
  ⟨by decide,
    currentValue_string_coercion_invariant.2.1 (track (mkTextInput "a"))
      (.bool true) (by decide)⟩

/-- C3: `updateValueIfChanged` returns `false` on an absent node; returns
`true` (leaving the node alone) when no tracker is attached; and with a
tracker attached compares the recorded value against a fresh
`getValueFromNode` read, storing the fresh value via the tracker's
`setValue` and returning `true` when they differ, else returning `false`. -/
theorem updateValueIfChanged_spec :
    updateValueIfChanged none = (false, none) ∧
    (∀ s : NodeState, s.hasTracker = false →
      updateValueIfChanged (some s) = (true, some s)) ∧
    (∀ s : NodeState, s.hasTracker = true →
      (jsStrictEq (getValueFromNode (some s)) (.str (trackerGetValue s)) = false →
        updateValueIfChanged (some s)
          = (true, some (trackerSetValue s (getValueFromNode (some s))))) ∧
      (jsStrictEq (getValueFromNode (some s)) (.str (trackerGetValue s)) = true →
        updateValueIfChanged (some s) = (false, some s))) := by
  refine ⟨rfl, ?_, ?_⟩
  · intro s h
    simp [updateValueIfChanged, h]
  · intro s h
    constructor
    · intro hne
      simp [updateValueIfChanged, h, hne]
    · intro heq
      simp [updateValueIfChanged, h, heq]

/-- Witness for C3 at a concrete untracked node. -/
theorem updateValueIfChanged_spec_witness :
    (mkTextInput "a").hasTracker = false ∧
    updateValueIfChanged (some (mkTextInput "a")) = (true, some (mkTextInput "a")) :=
  ⟨rfl, updateValueIfChanged_spec.2.1 (mkTextInput "a") rfl⟩

/-- C4: change is reported exactly once.  In general: on a tracked node
(closure present) whose freshly observed value is a string differing from
the recorded one — the situation created by an external write that changed
the observed string value — `updateValueIfChanged` returns `true`, and a
second immediate call on the resulting state returns `false`.  And
concretely: for a tracked fresh text input, a host-level external write
(user typing / autofill / a direct call to the class-level native setter,
bypassing the instance accessor) of a different string makes the first call
return `true` and the second return `false`. -/
theorem external_change_reported_exactly_once :
    (∀ (s : NodeState) (c : TrackerClosure), s.hasTracker = true → s.cell = some c →
      (∃ x, getValueFromNode (some s) = JSValue.str x) →
      jsStrictEq (getValueFromNode (some s)) (.str (trackerGetValue s)) = false →
      (updateValueIfChanged (some s)).1 = true ∧
      updateValueIfChanged (updateValueIfChanged (some s)).2
        = (false, (updateValueIfChanged (some s)).2)) ∧
    (∀ v vn : String, vn ≠ v →
      (updateValueIfChanged (some (untrackedWriteValue (track (mkTextInput v)) vn))).1 = true ∧
      updateValueIfChanged
          (updateValueIfChanged (some (untrackedWriteValue (track (mkTextInput v)) vn))).2
        = (false,
           (updateValueIfChanged (some (untrackedWriteValue (track (mkTextInput v)) vn))).2)) := by
  constructor
  · intro s c ht hc hx hne
    obtain ⟨x, hx⟩ := hx
    have h1 := updateValueIfChanged_changed ht hne
    refine ⟨by rw [h1], ?_⟩
    rw [h1]
    have ht2 : (trackerSetValue s (getValueFromNode (some s))).hasTracker = true := by
      rw [trackerSetValue_hasTracker]; exact ht
    have hg2 : trackerGetValue (trackerSetValue s (getValueFromNode (some s)))
        = toJSString (getValueFromNode (some s)) := by
      rw [trackerSetValue_of_cell hc]
      simp [trackerGetValue]
    have heq : jsStrictEq
        (getValueFromNode (some (trackerSetValue s (getValueFromNode (some s)))))
        (.str (trackerGetValue (trackerSetValue s (getValueFromNode (some s))))) = true := by
      rw [getValueFromNode_trackerSetValue, hg2, hx]
      simp [jsStrictEq, toJSString]
    exact updateValueIfChanged_unchanged ht2 heq
  · intro v vn hvn
    have hu : untrackedWriteValue (track (mkTextInput v)) vn
        = { trackedText v with valueSlot := vn } := rfl
    have hX : ({ trackedText v with valueSlot := vn } : NodeState).hasTracker = true := rfl
    have hval : getValueFromNode
        (some ({ trackedText v with valueSlot := vn } : NodeState)) = .str vn := rfl
    have hlast : trackerGetValue ({ trackedText v with valueSlot := vn } : NodeState) = v := rfl
    have hne : jsStrictEq
        (getValueFromNode (some ({ trackedText v with valueSlot := vn } : NodeState)))
        (.str (trackerGetValue ({ trackedText v with valueSlot := vn } : NodeState)))
        = false := by
      rw [hval, hlast]
      simp [jsStrictEq, hvn]
    have h1 := updateValueIfChanged_changed hX hne
    have hset : trackerSetValue ({ trackedText v with valueSlot := vn } : NodeState)
        (getValueFromNode (some ({ trackedText v with valueSlot := vn } : NodeState)))
        = trackedText vn := by
      rw [hval]; rfl
    rw [hu]
    refine ⟨by rw [h1], ?_⟩
    rw [h1, hset]
    have heq : jsStrictEq (getValueFromNode (some (trackedText vn)))
        (.str (trackerGetValue (trackedText vn))) = true := by
      have hv2 : getValueFromNode (some (trackedText vn)) = .str vn := rfl
      have hl2 : trackerGetValue (trackedText vn) = vn := rfl
      rw [hv2, hl2]
      simp [jsStrictEq]
    exact updateValueIfChanged_unchanged rfl heq

/-- Witness for C4 at the concrete external write `"a"` → `"b"`. -/
theorem external_change_reported_exactly_once_witness :
    ("b" : String) ≠ "a" ∧
    (updateValueIfChanged (some (untrackedWriteValue (track (mkTextInput "a")) "b"))).1 = true :=
  ⟨by decide, (external_change_reported_exactly_once.2 "a" "b" (by decide)).1⟩

/-- C5: under any bail condition — the instance already owns the target
field, no class-level descriptor exists, or the descriptor lacks a getter or
a setter — `trackValueOnNode` returns no tracker and leaves the node state
unchanged (no property defined, no closure created). -/
theorem trackValueOnNode_bail_no_mutation (s : NodeState)
    (h : (ownProp s (targetField s)).isSome = true ∨
         protoDesc s (targetField s) = none ∨
         (∃ d, protoDesc s (targetField s) = some d ∧ d.get? = none) ∨
         (∃ d, protoDesc s (targetField s) = some d ∧ d.set? = none)) :
    trackValueOnNode s = (none, s) := by
  rcases h with h | h | ⟨d, hd, hget⟩ | ⟨d, hd, hset⟩
  · simp [trackValueOnNode, h]
  · cases hown : (ownProp s (targetField s)).isSome <;>
      simp [trackValueOnNode, h, hown]
  · cases hown : (ownProp s (targetField s)).isSome <;>
      simp [trackValueOnNode, hd, hget, hown]
  · cases hown : (ownProp s (targetField s)).isSome <;>
      cases hget : d.get? <;> simp [trackValueOnNode, hd, hget, hset, hown]

/-- Witness for C5: a node whose instance already owns the `value` field. -/
theorem trackValueOnNode_bail_no_mutation_witness :
    (ownProp ownedTextInput (targetField ownedTextInput)).isSome = true ∧
    trackValueOnNode ownedTextInput = (none, ownedTextInput) :=
  ⟨by decide, trackValueOnNode_bail_no_mutation ownedTextInput (Or.inl (by decide))⟩

/-- C6: `getValueFromNode` returns the empty string on an absent node;
returns exactly `"true"` or `"false"` — the truthiness of the
boolean-backed `checked` read — on a checkable control (tag lowercases to
`"input"`, sub-kind `checkbox`/`radio`); and otherwise returns the `value`
field's read unmodified.  It is a pure function of the node state (its type
admits no state output). -/
theorem getValueFromNode_spec :
    getValueFromNode none = .str "" ∧
    (∀ s : NodeState, isCheckable s = true →
      getValueFromNode (some s)
        = (if (readField s .checked).truthy then .str "true" else .str "false") ∧
      (getValueFromNode (some s) = .str "true" ∨
       getValueFromNode (some s) = .str "false")) ∧
    (∀ s : NodeState, isCheckable s = false →
      getValueFromNode (some s) = readField s ValueField.value) := by
  refine ⟨rfl, ?_, ?_⟩
  · intro s h
    refine ⟨by simp [getValueFromNode, h], ?_⟩
    cases ht : (readField s .checked).truthy <;> simp [getValueFromNode, h, ht]
  · intro s h
    simp [getValueFromNode, h]

/-- Witness for C6 at a concrete checked checkbox. -/
theorem getValueFromNode_spec_witness :
    isCheckable (mkCheckboxInput true) = true ∧
    getValueFromNode (some (mkCheckboxInput true))
      = (if (readField (mkCheckboxInput true) .checked).truthy
         then .str "true" else .str "false") :=
  ⟨by decide, (getValueFromNode_spec.2.1 (mkCheckboxInput true) (by decide)).1⟩

/-- C7: on a host-conformant node (any class-level descriptor for the target
field carries the native getter, as the spec assumes the host's fields are
boolean- or string-backed), a successful `track` immediately followed by
`updateValueIfChanged` with no intervening write returns `false`: the seeded
recorded value — the string coercion of the field at installation time —
equals the fresh `getValueFromNode` read. -/
theorem track_then_query_reports_no_change (s : NodeState)
    (hnt : s.hasTracker = false)
    (hnative : ∀ d, protoDesc s (targetField s) = some d → d.get? = some Getter.native)
    (hsucc : (track s).hasTracker = true) :
    updateValueIfChanged (some (track s)) = (false, some (track s)) := by
  obtain ⟨d, g, st, hown, hd, hg, hst, htrack⟩ := track_success s hnt hsucc
  have h2 := hnative d hd
  rw [hg] at h2
  obtain rfl : g = Getter.native := Option.some.inj h2
  cases hchk : isCheckable s
  case false =>
    have hf : targetField s = ValueField.value := by simp [targetField, hchk]
    rw [hf] at hown hd htrack
    have hckT : isCheckable (track s) = isCheckable s := by rw [htrack]; rfl
    have hcellT : (track s).cell
        = some ⟨.value, .native, st, toJSString (readField s .value)⟩ := by
      rw [htrack]; rfl
    have hlast : trackerGetValue (track s) = toJSString (readField s .value) := by
      simp [trackerGetValue, hcellT]
    have hownT : ownProp (track s) .value = some (.installed d.enumerable) := by
      rw [htrack]; rfl
    have hprotoT : protoDesc (track s) .value = protoDesc s .value := by
      rw [htrack]; rfl
    have hslotT : (track s).valueSlot = s.valueSlot := by rw [htrack]; rfl
    have hreadT : readField (track s) .value = .str s.valueSlot := by
      simp [readField, hownT, installedGet, hcellT, hprotoT, hd, hg, runGetter, hslotT]
    have hreadS : readField s .value = .str s.valueSlot := by
      simp [readField, hown, hd, hg, runGetter]
    have hgv : getValueFromNode (some (track s)) = .str s.valueSlot := by
      simp [getValueFromNode, hckT, hchk, hreadT]
    apply updateValueIfChanged_unchanged hsucc
    rw [hgv, hlast, hreadS]
    simp [toJSString, jsStrictEq]
  case true =>
    have hf : targetField s = ValueField.checked := by simp [targetField, hchk]
    rw [hf] at hown hd htrack
    have hckT : isCheckable (track s) = isCheckable s := by rw [htrack]; rfl
    have hcellT : (track s).cell
        = some ⟨.checked, .native, st, toJSString (readField s .checked)⟩ := by
      rw [htrack]; rfl
    have hlast : trackerGetValue (track s) = toJSString (readField s .checked) := by
      simp [trackerGetValue, hcellT]
    have hownT : ownProp (track s) .checked = some (.installed d.enumerable) := by
      rw [htrack]; rfl
    have hprotoT : protoDesc (track s) .checked = protoDesc s .checked := by
      rw [htrack]; rfl
    have hslotT : (track s).checkedSlot = s.checkedSlot := by rw [htrack]; rfl
    have hreadT : readField (track s) .checked = .bool s.checkedSlot := by
      simp [readField, hownT, installedGet, hcellT, hprotoT, hd, hg, runGetter, hslotT]
    have hreadS : readField s .checked = .bool s.checkedSlot := by
      simp [readField, hown, hd, hg, runGetter]
    have hgv : getValueFromNode (some (track s))
        = (if s.checkedSlot then JSValue.str "true" else .str "false") := by
      simp [getValueFromNode, hckT, hchk, hreadT, JSValue.truthy]
    apply updateValueIfChanged_unchanged hsucc
    rw [hgv, hlast, hreadS]
    cases s.checkedSlot <;> simp [toJSString, jsStrictEq]

/-- Witness for C7 at a fresh text input holding `"a"`. -/
theorem track_then_query_reports_no_change_witness :
    (mkTextInput "a").hasTracker = false ∧
    (track (mkTextInput "a")).hasTracker = true ∧
    updateValueIfChanged (some (track (mkTextInput "a")))
      = (false, some (track (mkTextInput "a"))) :=
  ⟨rfl, by decide,
    track_then_query_reports_no_change (mkTextInput "a") rfl
      (by
        intro d h
        simp [protoDesc, mkTextInput, targetField, isCheckable, jsToLowerCase] at h
        rw [← h])
      (by decide)⟩

/-- C8: `track` is idempotent — on a node that already has a tracker
attached it is a no-op, so the node keeps the very same tracker closure and
state it had before the call. -/
theorem track_idempotent_on_tracked_node (s : NodeState)
    (h : s.hasTracker = true) : track s = s := by
  simp [track, h]

/-- Witness for C8: tracking an already-tracked text input changes nothing. -/
theorem track_idempotent_on_tracked_node_witness :
    (track (mkTextInput "a")).hasTracker = true ∧
    track (track (mkTextInput "a")) = track (mkTextInput "a") :=
  ⟨by decide, track_idempotent_on_tracked_node (track (mkTextInput "a")) (by decide)⟩

/-- C9: on a node with a tracker attached, `stopTracking` clears the
tracker reference and deletes the instance-level accessor for the tracked
field, after which reading that field goes through whatever the class
currently defines (`classRead`), while the backing slots and the class
descriptors are untouched; on a node with no tracker attached it changes
nothing. -/
theorem stopTracking_spec :
    (∀ (s : NodeState) (c : TrackerClosure),
      s.hasTracker = true → s.cell = some c →
      (stopTracking s).hasTracker = false ∧
      ownProp (stopTracking s) c.field = none ∧
      readField (stopTracking s) c.field = classRead (stopTracking s) c.field ∧
      (stopTracking s).checkedSlot = s.checkedSlot ∧
      (stopTracking s).valueSlot = s.valueSlot ∧
      (stopTracking s).protoChecked = s.protoChecked ∧
      (stopTracking s).protoValue = s.protoValue) ∧
    (∀ s : NodeState, s.hasTracker = false → stopTracking s = s) := by
  constructor
  · intro s c ht hc
    have hstop : stopTracking s = setOwn { s with hasTracker := false } c.field none := by
      simp [stopTracking, trackerStopTracking, ht, hc]
    cases hf : c.field <;>
      simp [hstop, hf, setOwn, ownProp, readField, classRead, protoDesc]
  · intro s h
    simp [stopTracking, h]

/-- Witness for C9 at a concrete tracked text input. -/
theorem stopTracking_spec_witness :
    (track (mkTextInput "a")).hasTracker = true ∧
    (track (mkTextInput "a")).cell = some cellA ∧
    (stopTracking (track (mkTextInput "a"))).hasTracker = false ∧
    ownProp (stopTracking (track (mkTextInput "a"))) cellA.field = none :=
  ⟨by decide, by decide,
    (stopTracking_spec.1 (track (mkTextInput "a")) cellA (by decide) (by decide)).1,
    (stopTracking_spec.1 (track (mkTextInput "a")) cellA (by decide) (by decide)).2.1⟩

end InputValueTracking
